import Mathlib

/-!
# TruthGuardAI — verification of the spec against `src/app.py`

Shallow embedding of the pure core of the TruthGuardAI pipeline
(`src/app.py`): the verdict classifier, the corroboration adjuster,
the lexical analyzer's result construction, the content extractor's
fallback chain, the two search wrappers, and the persistence step of
the `/verify` handler.  External library calls (NLTK tokenization,
TextBlob sentiment, HTTP fetching, HTML parsing, the SerpAPI client)
are modelled by passing their outcomes in as explicit data, exactly as
the spec treats them (black boxes); everything the repository itself
computes is translated faithfully.

A Python `str` is a sequence of code points, embedded as `List Char`
(`PyStr`); Python slicing, `in`, `count`, `strip`, `split`, `join` and
`replace` become the corresponding executable list functions below.
Sentiment polarity is a Python float in `[-1, 1]`; every comparison
the code performs on it is an order comparison against a short decimal
literal, so it is embedded as `ℚ`.
-/

set_option autoImplicit false

namespace TruthGuard

/-- A Python string: a sequence of code points. -/
abbrev PyStr := List Char

/-- The four verdict labels appearing in `app.py`
(`"real"`, `"suspicious"`, `"fake"`, `"uncertain"`). -/
inductive Label where
  | real
  | suspicious
  | fake
  | uncertain
deriving DecidableEq, Repr

/-- Verdict classifier, `app.py` lines 129–134:

```python
if total_indicators >= 3 or polarity < -0.25 or polarity > 0.5:
    label = "fake"
elif total_indicators >= 1 or abs(polarity) > 0.15:
    label = "suspicious"
else:
    label = "real"
``` -/
def classify (totalIndicators : ℕ) (polarity : ℚ) : Label :=
  if 3 ≤ totalIndicators ∨ polarity < -0.25 ∨ 0.5 < polarity then
    Label.fake
  else if 1 ≤ totalIndicators ∨ 0.15 < |polarity| then
    Label.suspicious
  else
    Label.real

/-- Corroboration adjustment, `app.py` lines 209–213:

```python
if len(search_results) < 3:
    if analysis["label"] == "real":
        analysis["label"] = "suspicious"
    elif analysis["label"] == "uncertain":
        analysis["label"] = "fake"
``` -/
def adjust_label (label : Label) (searchResultCount : ℕ) : Label :=
  if searchResultCount < 3 then
    match label with
    | Label.real => Label.suspicious
    | Label.uncertain => Label.fake
    | l => l
  else
    label

/-- Python's `str.strip()`: remove leading and trailing whitespace. -/
def pyStrip (s : PyStr) : PyStr :=
  ((s.dropWhile Char.isWhitespace).reverse.dropWhile Char.isWhitespace).reverse

/-- Python's `str.split()` with no argument: split on whitespace,
discarding empty pieces. -/
def pySplit (s : PyStr) : List PyStr :=
  (List.splitOnP Char.isWhitespace s).filter (fun t => !t.isEmpty)

/-- Python's `str.isupper()`: at least one cased character and no
lowercase character (cased characters modelled as alphabetic ones). -/
def pyIsUpper (s : PyStr) : Bool :=
  s.any Char.isAlpha && s.all (fun c => !c.isLower)

/-- Python's substring test `w in t`. -/
def containsWord (t w : PyStr) : Bool :=
  decide (w <:+: t)

/-- Python's banker's rounding of `q` to the nearest integer
(ties go to the even integer), used by `round(polarity, 4)`. -/
def roundHalfToEven (q : ℚ) : ℤ :=
  if q - ⌊q⌋ < 1/2 then ⌊q⌋
  else if (1 : ℚ)/2 < q - ⌊q⌋ then ⌊q⌋ + 1
  else if 2 ∣ ⌊q⌋ then ⌊q⌋ else ⌊q⌋ + 1

/-- Python's `round(q, 4)`. -/
def pyRound4 (q : ℚ) : ℚ :=
  (roundHalfToEven (q * 10000) : ℚ) / 10000

/-- Outcomes of the external NLP library calls made by `analyze_text`
(`word_tokenize` + stopword removal, with its whitespace fallback, and
`TextBlob(...).sentiment.polarity`, defaulting to `0.0` on failure).
The spec treats both as black boxes, so they are passed in as data. -/
structure NlpOutcome where
  tokens : List PyStr
  polarity : ℚ

/-- The sensational-vocabulary list, `app.py` lines 115–122. -/
def sensational_words : List PyStr := List.map String.data [
  "click", "shocking", "unbelievable", "hate", "secret", "miracle", "cure",
  "conspiracy", "pharma", "believe", "weird", "trick", "scientists", "baffled",
  "hidden", "truth", "wake", "sheeple", "fake", "hoax", "breaking", "news",
  "urgent", "alert", "warning", "scandal", "exposed", "leaked", "bombshell",
  "revolutionary", "guaranteed", "limited", "act", "free", "money", "cancer",
  "theory", "deep", "state", "alternative", "facts", "zombie", "apocalypse"]

/-- The preview construction of `app.py` line 136:
`text.strip()[:300].replace("\n", " ") + ("…" if len(text.strip()) > 300 else "")`. -/
def preview_of (text : PyStr) : PyStr :=
  ((pyStrip text).take 300).map (fun c => if c = '\n' then ' ' else c) ++
    (if 300 < (pyStrip text).length then ['…'] else [])

/-- The dictionary returned by `analyze_text`.  The degenerate
short-text result (line 95) has no `indicators` key, the full result
(line 137) has one; the field is therefore an `Option`. -/
structure AnalysisResult where
  tokens : List PyStr
  sentiment : ℚ
  label : Label
  preview : PyStr
  indicators : Option ℕ
deriving DecidableEq

/-- The analyzer `analyze_text` (`app.py` lines 93–137), with the external NLP
outcomes passed in explicitly.  The guard, the indicator computation,
the classifier call, the preview and the returned dictionary are
translated from the source:

```python
if not text or len(text.strip()) < 10:
    return {"tokens": [], "sentiment": 0.0, "label": "uncertain", "preview": ""}
...
indicator_count = sum(1 for t in tokens if any(w in t for w in sensational_words))
punct_indicators = (text.count('!') + text.count('?')) // 2
caps_indicators = 1 if sum(1 for t in text.split() if t.isupper() and len(t) > 3) > 1 else 0
total_indicators = indicator_count + punct_indicators + caps_indicators
...
return {"tokens": tokens[:20], "sentiment": round(polarity, 4), "label": label,
        "preview": preview, "indicators": total_indicators}
```

(The discarded best-effort `pos_tag` pass has no effect on the result
and is not modelled.) -/
def analyze_text (text : PyStr) (nlp : NlpOutcome) : AnalysisResult :=
  if text = [] ∨ (pyStrip text).length < 10 then
    { tokens := [], sentiment := 0.0, label := Label.uncertain, preview := [],
      indicators := none }
  else
    let tokens := nlp.tokens
    let polarity := nlp.polarity
    let indicator_count :=
      tokens.countP (fun t => sensational_words.any (fun w => containsWord t w))
    let punct_indicators := (text.count '!' + text.count '?') / 2
    let caps_indicators :=
      if 1 < (pySplit text).countP (fun t => pyIsUpper t && decide (3 < t.length)) then 1
      else 0
    let total_indicators := indicator_count + punct_indicators + caps_indicators
    { tokens := tokens.take 20
      sentiment := pyRound4 polarity
      label := classify total_indicators polarity
      preview := preview_of text
      indicators := some total_indicators }

/-- A successfully fetched and parsed page, as `extract_text_from_url`
sees it: the title element's string when one exists, the visible text
of each paragraph element (`p.get_text(" ", strip=True)`), and the
`content` attribute of the description meta element
(`name=description` or `og:description`) when one exists. -/
structure Page where
  titleText : Option PyStr
  paragraphTexts : List PyStr
  metaDescription : Option PyStr

/-- Success path of `extract_text_from_url` (`app.py` lines 80–87):

```python
title = soup.title.string.strip() if soup.title else url
paragraphs = [p.get_text(" ", strip=True) for p in soup.find_all("p")][:max_paragraphs]
content = " ".join(paragraphs) or title
if not content:
    meta = soup.find("meta", {"name": "description"}) or soup.find("meta", {"property": "og:description"})
    content = meta.get("content", "") if meta else title
return title, content
```

The failure path (any exception) returns `(url, url)` and is outside
this function's domain.  The only call site uses the default
`max_paragraphs=15`, modelled inline. -/
def extract_title (url : PyStr) (page : Page) : PyStr :=
  match page.titleText with
  | some t => pyStrip t
  | none => url

/-- Body computation of `extract_text_from_url`: see `extract_title`
for the quoted source. -/
def extract_text_from_url (url : PyStr) (page : Page) :
    PyStr × PyStr :=
  let max_paragraphs := 15
  let title := extract_title url page
  let paragraphs := page.paragraphTexts.take max_paragraphs
  let joined := List.intercalate [' '] paragraphs
  let content := if joined = [] then title else joined
  let content := if content = [] then
      match page.metaDescription with
      | some m => m
      | none => title
    else content
  (title, content)

/-- An element of the list returned by either search wrapper: the
dictionary `{"title": ..., "url": ..., "snippet": ...}` whose values
may be Python `None`. -/
structure SearchResult where
  title : Option PyStr
  url : Option PyStr
  snippet : Option PyStr
deriving DecidableEq

/-- One entry of the SerpAPI response's `organic_results`, with each
field as `it.get(...)` sees it (`none` when the key is absent). -/
structure OrganicItem where
  title : Option PyStr
  link : Option PyStr
  snippet : Option PyStr
deriving DecidableEq

/-- Success path of `google_search_serpapi` (`app.py` lines 146–149):

```python
return [{"title": it.get("title"), "url": it.get("link"), "snippet": it.get("snippet")}
        for it in results.get("organic_results", [])[:num]]
```

The missing-key and exception paths return `[]`. -/
def google_search_serpapi (organic_results : List OrganicItem) (num : ℕ) :
    List SearchResult :=
  (organic_results.take num).map (fun it =>
    { title := it.title, url := it.link, snippet := it.snippet })

/-- Python truthiness of an optional string: `None` and `""` are falsy. -/
def pyTruthy : Option PyStr → Bool
  | some s => !s.isEmpty
  | none => false

/-- Python's `a or b` on optional strings. -/
def pyOr (a b : Option PyStr) : Option PyStr :=
  if pyTruthy a then a else b

/-- One result container selected by `google_search_scrape`: the text
of its `h3` element when present, the `href` of its `a` element when
present, and the text of its snippet element when present. -/
structure ScrapeContainer where
  titleText : Option PyStr
  href : Option PyStr
  snippetText : Option PyStr
deriving DecidableEq

/-- Success path of `google_search_scrape` (`app.py` lines 160–171):

```python
for g in containers[:num]:
    title = title_el.get_text(strip=True) if title_el else None
    link = link_el['href'] if link_el else None
    snippet = snippet_el.get_text(" ", strip=True) if snippet_el else ""
    if title or link:
        results.append({"title": title or link, "url": link, "snippet": snippet})
return results
```

The exception path returns `[]`. -/
def google_search_scrape (containers : List ScrapeContainer) (num : ℕ) :
    List SearchResult :=
  (containers.take num).filterMap (fun g =>
    let title := g.titleText
    let link := g.href
    let snippet := match g.snippetText with
      | some s => s
      | none => []
    if pyTruthy title || pyTruthy link then
      some { title := pyOr title link, url := link, snippet := some snippet }
    else
      none)

/-- A persisted `FakeNewsReport` row (`app.py` lines 42–46), with the
fields the `/verify` save step populates. -/
structure Report where
  text : PyStr
  label : Label
deriving DecidableEq

/-- The save step of `/verify` (`app.py` lines 216–221): the insert of
`FakeNewsReport(text=analysis_text[:2000], label=analysis["label"])`
sits inside `try/except`, so a failing commit (modelled by
`dbOk = false`) leaves the store unchanged and raises nothing. -/
def verify_save (dbOk : Bool) (db : List Report) (analysis_text : PyStr) (label : Label) :
    List Report :=
  if dbOk then
    db ++ [{ text := analysis_text.take 2000, label := label }]
  else
    db

/-- The JSON body returned by a successful `/verify` request
(`app.py` line 223). -/
structure VerifyResponse where
  analysis : AnalysisResult
  search_results : List SearchResult

/-- Tail of the `/verify` handler (`app.py` lines 215–223): attempt the
save, then return `{"analysis": analysis, "search_results": search_results}`.
`analysis` here is the post-adjustment analysis. -/
def verify_finish (analysis : AnalysisResult) (search_results : List SearchResult)
    (analysis_text : PyStr) (dbOk : Bool) (db : List Report) :
    VerifyResponse × List Report :=
  ({ analysis := analysis, search_results := search_results },
   verify_save dbOk db analysis_text analysis.label)

/-! ## Classifier characterization (shared lemmas) -/

theorem classify_eq_fake_iff (t : ℕ) (s : ℚ) :
    classify t s = Label.fake ↔ 3 ≤ t ∨ s < -0.25 ∨ 0.5 < s := by
  unfold classify
  split_ifs with h1 h2 <;> simp_all

theorem classify_eq_suspicious_iff (t : ℕ) (s : ℚ) :
    classify t s = Label.suspicious ↔
      ¬(3 ≤ t ∨ s < -0.25 ∨ 0.5 < s) ∧ (1 ≤ t ∨ 0.15 < |s|) := by
  unfold classify
  split_ifs with h1 h2 <;> simp_all

theorem classify_eq_real_iff (t : ℕ) (s : ℚ) :
    classify t s = Label.real ↔
      ¬(3 ≤ t ∨ s < -0.25 ∨ 0.5 < s) ∧ ¬(1 ≤ t ∨ 0.15 < |s|) := by
  unfold classify
  split_ifs with h1 h2 <;> simp_all

/-! ## Claim theorems -/

/-- C1 (amended): the classifier is a pure function of
`(totalIndicators, sentiment)` evaluated in strict order — `fake` iff
`totalIndicators ≥ 3` or `sentiment < -0.25` or `sentiment > 0.5`,
otherwise `suspicious` iff `totalIndicators ≥ 1` or `|sentiment| > 0.15`,
otherwise `real`; `totalIndicators = 3` yields `fake` for every
sentiment; but since the comparisons are strict, sentiment exactly
`0.5` does NOT trigger the fake clause (with zero indicators it yields
`suspicious`), and sentiment `0.25` and `|sentiment| = 0.15` likewise
do not trigger their respective clauses. -/
theorem c1_classifier_characterization :
    ∀ (t : ℕ) (s : ℚ),
      (classify t s = Label.fake ↔ 3 ≤ t ∨ s < -0.25 ∨ 0.5 < s) ∧
      (classify t s = Label.suspicious ↔
        ¬(3 ≤ t ∨ s < -0.25 ∨ 0.5 < s) ∧ (1 ≤ t ∨ 0.15 < |s|)) ∧
      (classify t s = Label.real ↔
        ¬(3 ≤ t ∨ s < -0.25 ∨ 0.5 < s) ∧ ¬(1 ≤ t ∨ 0.15 < |s|)) ∧
      classify 3 s = Label.fake ∧
      classify 0 0.5 = Label.suspicious ∧
      (classify t 0.25 = Label.fake ↔ 3 ≤ t) ∧
      classify 0 0.15 = Label.real ∧
      classify 0 (-0.15) = Label.real := by
  intro t s
  refine ⟨classify_eq_fake_iff t s, classify_eq_suspicious_iff t s,
    classify_eq_real_iff t s, ?_, ?_, ?_, ?_, ?_⟩
  · exact (classify_eq_fake_iff 3 s).mpr (Or.inl le_rfl)
  · norm_num [classify, abs]
  · rw [classify_eq_fake_iff]
    norm_num
  · norm_num [classify, abs]
  · norm_num [classify, abs]

/-- C1 counterexample: the claim asserts that sentiment exactly `0.5`
yields `fake` for every pair, but the code's comparison is strict, so
with zero indicators and polarity exactly `0.5` the label is
`suspicious`, not `fake`. -/
theorem c1_counterexample :
    classify 0 0.5 = Label.suspicious ∧ classify 0 0.5 ≠ Label.fake := by
  have h : classify 0 0.5 = Label.suspicious := by norm_num [classify, abs]
  rw [h]
  exact ⟨rfl, by decide⟩

/-- C2: the corroboration adjustment maps `real` to `suspicious` and
`uncertain` to `fake` exactly when the search-result count is below 3,
leaves `suspicious` and `fake` unchanged for every count, and changes
nothing for any count of 3 or more. -/
theorem c2_corroboration_adjustment :
    ∀ (c : ℕ),
      (adjust_label Label.real c = if c < 3 then Label.suspicious else Label.real) ∧
      (adjust_label Label.uncertain c = if c < 3 then Label.fake else Label.uncertain) ∧
      (adjust_label Label.suspicious c = Label.suspicious) ∧
      (adjust_label Label.fake c = Label.fake) ∧
      (∀ l, adjust_label l (3 + c) = l) := by
  intro c
  refine ⟨?_, ?_, ?_, ?_, fun l => ?_⟩ <;>
    unfold adjust_label <;> split_ifs <;> first | rfl | omega

/-- C7: the corroboration adjustment is idempotent — applying it twice
with the same search-result count equals applying it once (its outputs
`suspicious` and `fake` are fixed points). -/
theorem c7_adjust_idempotent :
    ∀ (l : Label) (c : ℕ), adjust_label (adjust_label l c) c = adjust_label l c := by
  intro l c
  cases l <;> unfold adjust_label <;> split_ifs <;> rfl

/-- C4 (amended): for every sentiment with `|sentiment| ≤ 0.15`, the
classifier applied to exactly 2 indicators returns `suspicious` (not
`real`: the suspicious clause fires at `totalIndicators ≥ 1`). -/
theorem c4_two_indicators_suspicious (s : ℚ) (h : |s| ≤ 0.15) :
    classify 2 s = Label.suspicious := by
  obtain ⟨h1, h2⟩ := abs_le.mp h
  rw [classify_eq_suspicious_iff]
  push_neg
  refine ⟨⟨by norm_num, ?_, ?_⟩, Or.inl (by norm_num)⟩
  · norm_num at h1 ⊢
    linarith
  · norm_num at h2 ⊢
    linarith

/-- C4 witness: the amended claim at sentiment `0`. -/
theorem c4_witness : |(0 : ℚ)| ≤ 0.15 ∧ classify 2 0 = Label.suspicious :=
  ⟨by norm_num, c4_two_indicators_suspicious 0 (by norm_num)⟩

/-- C4 counterexample: at 2 indicators and sentiment `0` (certainly
`|0| ≤ 0.15`) the code returns `suspicious`, not `real` as claimed. -/
theorem c4_counterexample :
    |(0 : ℚ)| ≤ 0.15 ∧ classify 2 0 = Label.suspicious ∧ classify 2 0 ≠ Label.real := by
  have h : classify 2 0 = Label.suspicious := by norm_num [classify, abs]
  rw [h]
  exact ⟨by norm_num, rfl, by decide⟩

/-- C3: for every input text that is empty or whose trimmed length is
below 10 characters, the analyzer returns the degenerate result:
no tokens, sentiment `0.0`, label `uncertain`, empty preview. -/
theorem c3_short_text_degenerate (text : PyStr) (nlp : NlpOutcome)
    (h : text = [] ∨ (pyStrip text).length < 10) :
    (analyze_text text nlp).tokens = [] ∧
    (analyze_text text nlp).sentiment = 0.0 ∧
    (analyze_text text nlp).label = Label.uncertain ∧
    (analyze_text text nlp).preview = [] := by
  unfold analyze_text
  rw [if_pos h]
  exact ⟨rfl, rfl, rfl, rfl⟩

/-- C3 witness: the degenerate contract at the 5-character input
`"short"`, with arbitrary NLP outcomes. -/
theorem c3_witness :
    ("short".data = ([] : PyStr) ∨ (pyStrip "short".data).length < 10) ∧
    ((analyze_text "short".data ⟨["x".data], 1⟩).tokens = [] ∧
      (analyze_text "short".data ⟨["x".data], 1⟩).sentiment = 0.0 ∧
      (analyze_text "short".data ⟨["x".data], 1⟩).label = Label.uncertain ∧
      (analyze_text "short".data ⟨["x".data], 1⟩).preview = []) :=
  ⟨by decide, c3_short_text_degenerate "short".data ⟨["x".data], 1⟩ (by decide)⟩

/-- Every label value is one of the four enum members (shared lemma). -/
theorem label_mem_enum (l : Label) :
    l = Label.real ∨ l = Label.suspicious ∨ l = Label.fake ∨ l = Label.uncertain := by
  cases l <;> simp

/-- Tokens of a non-degenerate analysis (shared lemma). -/
theorem analyze_text_tokens_of_long (text : PyStr) (nlp : NlpOutcome)
    (h : ¬(text = [] ∨ (pyStrip text).length < 10)) :
    (analyze_text text nlp).tokens = nlp.tokens.take 20 := by
  unfold analyze_text
  rw [if_neg h]

/-- Preview of a non-degenerate analysis (shared lemma). -/
theorem analyze_text_preview_of_long (text : PyStr) (nlp : NlpOutcome)
    (h : ¬(text = [] ∨ (pyStrip text).length < 10)) :
    (analyze_text text nlp).preview = preview_of text := by
  unfold analyze_text
  rw [if_neg h]

/-- Length of the preview string (shared lemma). -/
theorem preview_of_length (text : PyStr) :
    (preview_of text).length =
      min 300 (pyStrip text).length + (if 300 < (pyStrip text).length then 1 else 0) := by
  unfold preview_of
  rw [List.length_append, List.length_map, List.length_take]
  split_ifs <;> rfl

/-- C6: every non-degenerate analyzer result has a label among the four
enum values, at most 20 tokens, and a preview of at most 301 characters:
exactly the trimmed length when that is at most 300, and exactly 301
(300 characters plus one truncation marker) when the trimmed original
exceeds 300 characters. -/
theorem c6_result_invariants (text : PyStr) (nlp : NlpOutcome)
    (h : ¬(text = [] ∨ (pyStrip text).length < 10)) :
    ((analyze_text text nlp).label = Label.real ∨
      (analyze_text text nlp).label = Label.suspicious ∨
      (analyze_text text nlp).label = Label.fake ∨
      (analyze_text text nlp).label = Label.uncertain) ∧
    (analyze_text text nlp).tokens.length ≤ 20 ∧
    (analyze_text text nlp).preview.length ≤ 301 ∧
    ((pyStrip text).length ≤ 300 →
      (analyze_text text nlp).preview.length = (pyStrip text).length) ∧
    (300 < (pyStrip text).length → (analyze_text text nlp).preview.length = 301) := by
  refine ⟨label_mem_enum _, ?_, ?_, ?_, ?_⟩
  · rw [analyze_text_tokens_of_long text nlp h, List.length_take]
    exact Nat.min_le_left _ _
  · rw [analyze_text_preview_of_long text nlp h, preview_of_length]
    split_ifs <;> omega
  · intro h300
    rw [analyze_text_preview_of_long text nlp h, preview_of_length]
    split_ifs <;> omega
  · intro h300
    rw [analyze_text_preview_of_long text nlp h, preview_of_length, if_pos h300]
    omega

/-- C6 witness: the invariants at a concrete 22-character input. -/
theorem c6_witness :
    ¬("hello there good world".data = ([] : PyStr) ∨
      (pyStrip "hello there good world".data).length < 10) ∧
    (((analyze_text "hello there good world".data ⟨[], 0⟩).label = Label.real ∨
      (analyze_text "hello there good world".data ⟨[], 0⟩).label = Label.suspicious ∨
      (analyze_text "hello there good world".data ⟨[], 0⟩).label = Label.fake ∨
      (analyze_text "hello there good world".data ⟨[], 0⟩).label = Label.uncertain) ∧
      (analyze_text "hello there good world".data ⟨[], 0⟩).tokens.length ≤ 20 ∧
      (analyze_text "hello there good world".data ⟨[], 0⟩).preview.length ≤ 301 ∧
      ((pyStrip "hello there good world".data).length ≤ 300 →
        (analyze_text "hello there good world".data ⟨[], 0⟩).preview.length =
          (pyStrip "hello there good world".data).length) ∧
      (300 < (pyStrip "hello there good world".data).length →
        (analyze_text "hello there good world".data ⟨[], 0⟩).preview.length = 301)) :=
  ⟨by decide, c6_result_invariants "hello there good world".data ⟨[], 0⟩ (by decide)⟩

/-- C10: the analyzer result carries an indicator count exactly when
the input is non-degenerate — `indicators` is absent iff the text is
empty or trims below 10 characters — and the `/verify` response passes
the analysis through unchanged, so the indicator count is absent from
the response under exactly the same condition. -/
theorem c10_indicators_presence (text : PyStr) (nlp : NlpOutcome) :
    ((analyze_text text nlp).indicators = none ↔
      text = [] ∨ (pyStrip text).length < 10) ∧
    (∀ (search_results : List SearchResult) (analysis_text : PyStr) (dbOk : Bool)
      (db : List Report),
      (verify_finish (analyze_text text nlp) search_results analysis_text dbOk db).1.analysis =
        analyze_text text nlp) := by
  constructor
  · unfold analyze_text
    split_ifs with h
    · simpa using h
    · simpa using h
  · intro search_results analysis_text dbOk db
    rfl

/-- C10 witness: at the degenerate input `"short"` the indicators key
is absent; the iff evaluated at a concrete input. -/
theorem c10_witness :
    ((analyze_text "short".data ⟨[], 0⟩).indicators = none ↔
      "short".data = ([] : PyStr) ∨ (pyStrip "short".data).length < 10) ∧
    (∀ (search_results : List SearchResult) (analysis_text : PyStr) (dbOk : Bool)
      (db : List Report),
      (verify_finish (analyze_text "short".data ⟨[], 0⟩) search_results analysis_text dbOk db).1.analysis =
        analyze_text "short".data ⟨[], 0⟩) :=
  c10_indicators_presence "short".data ⟨[], 0⟩

/-- C5 (amended): when no paragraph element yields text, the extractor
falls back FIRST to the title (`" ".join(paragraphs) or title`), and
only when the title is itself empty does it consult the meta
description; the meta description therefore does not precede the
title. -/
theorem c5_no_paragraph_fallback (url : PyStr) (page : Page)
    (h : List.intercalate [' '] (page.paragraphTexts.take 15) = []) :
    (extract_text_from_url url page).2 =
      if extract_title url page = [] then
        match page.metaDescription with
        | some m => m
        | none => extract_title url page
      else extract_title url page := by
  unfold extract_text_from_url
  simp only [h, if_pos]

/-- C5 witness: a paragraph-less page whose title strips to empty, so
the body comes from the meta description. -/
theorem c5_witness :
    List.intercalate [' ']
      ((Page.mk (some "  ".data) [] (some "Desc".data)).paragraphTexts.take 15) = [] ∧
    (extract_text_from_url "u".data (Page.mk (some "  ".data) [] (some "Desc".data))).2 =
      (if extract_title "u".data (Page.mk (some "  ".data) [] (some "Desc".data)) = [] then
        match (Page.mk (some "  ".data) [] (some "Desc".data)).metaDescription with
        | some m => m
        | none => extract_title "u".data (Page.mk (some "  ".data) [] (some "Desc".data))
      else extract_title "u".data (Page.mk (some "  ".data) [] (some "Desc".data))) :=
  ⟨by decide,
   c5_no_paragraph_fallback "u".data (Page.mk (some "  ".data) [] (some "Desc".data))
     (by decide)⟩

/-- C5 counterexample: a successfully parsed page with no paragraph
text, a non-empty title and a meta description present: the body is
the title, not the meta description as the claim states. -/
theorem c5_counterexample :
    (extract_text_from_url "http://example.com".data
      (Page.mk (some "Hello World".data) [] (some "A description".data))).2 =
      "Hello World".data ∧
    (extract_text_from_url "http://example.com".data
      (Page.mk (some "Hello World".data) [] (some "A description".data))).2 ≠
      "A description".data := by
  constructor
  · decide
  · decide

/-- C8: report persistence stores the analysis text truncated to at
most 2000 characters with the adjusted label, a failed save leaves the
store untouched, and the `/verify` response body is the analysis and
search results regardless of whether the save succeeded. -/
theorem c8_save_truncation_and_fail_soft (analysis : AnalysisResult)
    (search_results : List SearchResult) (analysis_text : PyStr) (db : List Report) :
    (∀ dbOk : Bool,
      (verify_finish analysis search_results analysis_text dbOk db).1 =
        VerifyResponse.mk analysis search_results) ∧
    (verify_finish analysis search_results analysis_text false db).2 = db ∧
    (∃ r, (verify_finish analysis search_results analysis_text true db).2 = db ++ [r] ∧
      r.text.length ≤ 2000 ∧ r.label = analysis.label) := by
  refine ⟨fun dbOk => rfl, rfl, ⟨_, rfl, ?_, rfl⟩⟩
  rw [List.length_take]
  exact Nat.min_le_left _ _

/-- C9 (amended): both search wrappers return at most the requested
number of results; in the scrape path every element's snippet is a
string (defaulting to the empty string), while in the SerpAPI path the
snippet, like the title and url, may be absent. -/
theorem c9_search_result_shape (organic_results : List OrganicItem)
    (containers : List ScrapeContainer) (num : ℕ) :
    (google_search_serpapi organic_results num).length ≤ num ∧
    (google_search_scrape containers num).length ≤ num ∧
    (google_search_scrape containers num).all (fun r => r.snippet.isSome) = true := by
  refine ⟨?_, ?_, ?_⟩
  · unfold google_search_serpapi
    rw [List.length_map, List.length_take]
    exact Nat.min_le_left _ _
  · unfold google_search_scrape
    refine le_trans (List.length_filterMap_le _ _) ?_
    rw [List.length_take]
    exact Nat.min_le_left _ _
  · rw [List.all_eq_true]
    intro r hr
    unfold google_search_scrape at hr
    rcases List.mem_filterMap.mp hr with ⟨g, hg, hfg⟩
    dsimp only at hfg
    split_ifs at hfg
    cases hfg
    rfl

/-- C9 counterexample: in the SerpAPI path, an organic result whose
`snippet` key is absent produces a returned element whose snippet is
`None`, not a string — contradicting the claim that only title and url
may be absent. -/
theorem c9_counterexample :
    (google_search_serpapi
      [OrganicItem.mk (some "Example".data) (some "http://e".data) none] 6).map
      SearchResult.snippet = [none] := by
  decide

/-- C1 witness: the characterization instantiated at zero indicators
and zero sentiment. -/
theorem c1_witness :
    (classify 0 0 = Label.fake ↔ 3 ≤ 0 ∨ (0 : ℚ) < -0.25 ∨ 0.5 < (0 : ℚ)) ∧
    (classify 0 0 = Label.suspicious ↔
      ¬(3 ≤ 0 ∨ (0 : ℚ) < -0.25 ∨ 0.5 < (0 : ℚ)) ∧ (1 ≤ 0 ∨ 0.15 < |(0 : ℚ)|)) ∧
    (classify 0 0 = Label.real ↔
      ¬(3 ≤ 0 ∨ (0 : ℚ) < -0.25 ∨ 0.5 < (0 : ℚ)) ∧ ¬(1 ≤ 0 ∨ 0.15 < |(0 : ℚ)|)) ∧
    classify 3 0 = Label.fake ∧
    classify 0 0.5 = Label.suspicious ∧
    (classify 0 0.25 = Label.fake ↔ 3 ≤ 0) ∧
    classify 0 0.15 = Label.real ∧
    classify 0 (-0.15) = Label.real :=
  c1_classifier_characterization 0 0

/-- C2 witness: the adjustment characterization at count 0. -/
theorem c2_witness :
    (adjust_label Label.real 0 = if 0 < 3 then Label.suspicious else Label.real) ∧
    (adjust_label Label.uncertain 0 = if 0 < 3 then Label.fake else Label.uncertain) ∧
    (adjust_label Label.suspicious 0 = Label.suspicious) ∧
    (adjust_label Label.fake 0 = Label.fake) ∧
    (∀ l, adjust_label l (3 + 0) = l) :=
  c2_corroboration_adjustment 0

/-- C7 witness: idempotence at label `real` and count 0. -/
theorem c7_witness :
    adjust_label (adjust_label Label.real 0) 0 = adjust_label Label.real 0 :=
  c7_adjust_idempotent Label.real 0

/-- C8 witness: the persistence contract at a concrete analysis, an
empty result list, the text `"t"` and an empty store. -/
theorem c8_witness :
    (∀ dbOk : Bool,
      (verify_finish (AnalysisResult.mk [] 0 Label.real [] none) [] "t".data dbOk []).1 =
        VerifyResponse.mk (AnalysisResult.mk [] 0 Label.real [] none) []) ∧
    (verify_finish (AnalysisResult.mk [] 0 Label.real [] none) [] "t".data false []).2 = [] ∧
    (∃ r, (verify_finish (AnalysisResult.mk [] 0 Label.real [] none) [] "t".data true []).2 =
        [] ++ [r] ∧
      r.text.length ≤ 2000 ∧ r.label = (AnalysisResult.mk [] 0 Label.real [] none).label) :=
  c8_save_truncation_and_fail_soft (AnalysisResult.mk [] 0 Label.real [] none) [] "t".data []

/-- C9 witness: the amended shape claim at a one-element organic list,
a two-container scrape page and the request size 6 used by `/verify`. -/
theorem c9_witness :
    (google_search_serpapi [OrganicItem.mk (some "t".data) (some "u".data) (some "s".data)]
      6).length ≤ 6 ∧
    (google_search_scrape [ScrapeContainer.mk (some "T".data) (some "u".data) none,
      ScrapeContainer.mk none none (some "s".data)] 6).length ≤ 6 ∧
    ((google_search_scrape [ScrapeContainer.mk (some "T".data) (some "u".data) none,
      ScrapeContainer.mk none none (some "s".data)] 6).all
        (fun r => r.snippet.isSome)) = true :=
  c9_search_result_shape [OrganicItem.mk (some "t".data) (some "u".data) (some "s".data)]
    [ScrapeContainer.mk (some "T".data) (some "u".data) none,
     ScrapeContainer.mk none none (some "s".data)] 6

end TruthGuard
